import Mathlib

/-!
Shallow embedding of the rts_game map/entity update engine
(src/rtsgame/objects.py): pygame rectangle geometry, `Character` motion,
the `GameMap` per-tick update algorithm, the quest registry, and the
`GameEngine` input handling and map-loading loop, together with theorems
checking the specification's claims about them.

Modelling conventions:
* float positions are rationals (`ℚ`); a colliding move is undone by
  restoring the saved previous position, so exactness claims are
  faithful;
* pygame rect coordinates are integers; float-to-rect assignment is
  `Int.floor` (concrete inputs in this file are integral, where floor
  and Python truncation agree);
* the global random generator is an explicit stream of draws;
* the unbounded `while` loop of the exit correction is given explicit
  fuel and returns `none` when the fuel runs out, and Python `KeyError`
  (dict indexing with an absent key) makes the embedded operation return
  `none` / `Except.error`;
* object identity of a `Character` (Python allocation) is an explicit
  `id` field handed out by the construction sites.
-/

namespace RTS

/-- pygame axis-aligned rectangle: integer coordinates `x, y` (top left)
and extents `w, h`. -/
structure Rect where
  x : Int
  y : Int
  w : Int
  h : Int
deriving DecidableEq

/-- pygame `Rect.colliderect`: strict overlap on both axes. -/
def Rect.colliderect (a b : Rect) : Bool :=
  decide (a.x < b.x + b.w) && decide (b.x < a.x + a.w) &&
  decide (a.y < b.y + b.h) && decide (b.y < a.y + a.h)

/-- pygame `Rect.collidelist`: index of the first rectangle of the list
that the query overlaps (`none` stands for the Python result `-1`). -/
def Rect.collidelist (a : Rect) (l : List Rect) : Option Nat :=
  l.findIdx? (fun r => a.colliderect r)

/-- pygame `Rect.midbottom` (bottom-center): `(centerx, bottom)`. -/
def Rect.midbottom (r : Rect) : Int × Int :=
  (r.x + r.w / 2, r.y + r.h)

/-- Assignment `rect.topleft = p`. -/
def Rect.setTopleft (r : Rect) (p : Int × Int) : Rect :=
  { r with x := p.1, y := p.2 }

/-- Assignment `rect.midbottom = p`. -/
def Rect.setMidbottom (r : Rect) (p : Int × Int) : Rect :=
  { r with x := p.1 - r.w / 2, y := p.2 - r.h }

/-- Conversion of a float coordinate to a pygame integer rect
coordinate (assignment `rect.topleft = self._position`). -/
def toPix (q : ℚ) : Int := Int.floor q

/-- `Character` (objects.py:121): position/velocity/box state shared by
the hero and the NPCs.  `id` models Python object identity (each call of
`Character()` yields a fresh one). -/
structure Character where
  id : Nat
  name : String
  moving_direction : Nat
  velocity : ℚ × ℚ
  position : ℚ × ℚ
  old_position : ℚ × ℚ
  rect : Rect
  feet : Rect
  talking : Bool
  talkingwho : Option String
  dialogs : List (String × String)
  quest : Option String
deriving DecidableEq

/-- `Character.__init__` (objects.py:139): fresh sprite whose image is
`imgW × imgH` pixels; the feet rect is half the render width and 15
pixels tall, left at the origin until the first update. -/
def Character.init (id : Nat) (name : String) (imgW imgH : Int) : Character :=
  { id := id
    name := name
    moving_direction := 0
    velocity := (0, 0)
    position := (0, 0)
    old_position := (0, 0)
    rect := ⟨0, 0, imgW, imgH⟩
    feet := ⟨0, 0, imgW / 2, 15⟩
    talking := false
    talkingwho := none
    dialogs := []
    quest := none }

/-- `Character.update` (objects.py:200): save the previous position,
integrate `position += velocity * dt`, recompute the render rect from the
new position and re-anchor the feet rect at the render rect's
bottom-center. -/
def Character.update (c : Character) (dt : ℚ) : Character :=
  let p : ℚ × ℚ := (c.position.1 + c.velocity.1 * dt, c.position.2 + c.velocity.2 * dt)
  let r := c.rect.setTopleft (toPix p.1, toPix p.2)
  { c with
    old_position := c.position
    position := p
    rect := r
    feet := c.feet.setMidbottom r.midbottom }

/-- `Character.move_back` (objects.py:207): restore the saved previous
position and recompute both boxes (`dt` is an unused parameter of the
source method). -/
def Character.move_back (c : Character) (dt : ℚ) : Character :=
  let r := c.rect.setTopleft (toPix c.old_position.1, toPix c.old_position.2)
  { c with
    position := c.old_position
    rect := r
    feet := c.feet.setMidbottom r.midbottom }

/-- Forced placement of a hero on map switch (objects.py:618-620 in
`GameEngine.run`): only the `_position` fields are assigned; neither the
render rect nor the feet rect is recomputed. -/
def forcePlaceHero (c : Character) (p : ℚ × ℚ) : Character :=
  { c with position := p }

/-- `Item` (objects.py:45): the visible data of a quest reward item. -/
structure Item where
  name : String
  graphic_file : String
  x : ℚ
  y : ℚ
deriving DecidableEq

/-- `Quest` (objects.py:71): committed `status` and staged
`future_status`, both `None` at construction. -/
structure Quest where
  name : String
  location : String
  item : Item
  status : Option Int
  future_status : Option Int
deriving DecidableEq

/-- `Quest.__init__` (objects.py:73). -/
def Quest.init (name location : String) (item : Item) : Quest :=
  { name := name, location := location, item := item
    status := none, future_status := none }

/-- The class-level dict `GameEngine.quests` (objects.py:472).  Python
dict keys here are the strings inserted at startup; the dict is indexed
with `hero.quest`, which may be `None`, so keys are `Option String`. -/
abbrev QuestReg := List (Option String × Quest)

/-- Python dict indexing `GameEngine.quests[k]` (read): `none` models a
`KeyError`. -/
def QuestReg.find (reg : QuestReg) (k : Option String) : Option Quest :=
  List.lookup k reg

/-- `GameEngine.quests[k].future_status = v` on a present key. -/
def QuestReg.setFuture (reg : QuestReg) (k : Option String) (v : Option Int) : QuestReg :=
  reg.map (fun p => if p.1 = k then (p.1, { p.2 with future_status := v }) else p)

/-- `GameEngine.quests[k].status = v` on a present key. -/
def QuestReg.setStatus (reg : QuestReg) (k : Option String) (v : Option Int) : QuestReg :=
  reg.map (fun p => if p.1 = k then (p.1, { p.2 with status := v }) else p)

/-- A tmx object of the Exits layer (objects.py:266-268): its `name` is
what `GameMap.update` returns on an exit hit, its `type` is only
printed. -/
structure TmxObject where
  name : String
  otype : String
  rect : Rect
deriving DecidableEq

/-- `GameMap` state (objects.py:214): static geometry, the map-local
dialog, the NPC list and the map's hero. -/
structure GameMap where
  walls : List Rect
  exit_objs : List TmxObject
  zones : List Rect
  hero_start_postion : Option (ℚ × ℚ)
  dialog : Option String
  characters : List Character
  hero : Character
deriving DecidableEq

/-- `self.exits` (objects.py:267): the exit rectangles, parallel to
`exit_objs`. -/
def GameMap.exits (m : GameMap) : List Rect := m.exit_objs.map TmxObject.rect

/-- Python truthiness of an optional string (`if dialog:`,
`if not self.hero.quest:`): `None` and the empty string are falsy. -/
def truthy (o : Option String) : Bool :=
  match o with
  | none => false
  | some s => !s.isEmpty

/-- `random.choice([-1, 1])` driven by one Boolean draw of the stream. -/
def choiceSign (b : Bool) : Int := if b then -1 else 1

/-- One body of the exit correction loop (objects.py:428-430): displace
the sprite away from the colliding rectangle's center by 1.5 times the
rectangle's half-extent with a random sign per axis, then re-integrate. -/
def exitDisplace (r : Rect) (sx sy : Int) (dt : ℚ) (c : Character) : Character :=
  let cx : Int := r.x + r.w / 2
  let cy : Int := r.y + r.h / 2
  let px : ℚ := (cx : ℚ) + ((cx - r.x : Int) : ℚ) * (3 / 2) * (sx : ℚ)
  let py : ℚ := (cy : ℚ) + ((cy - r.y : Int) : ℚ) * (3 / 2) * (sy : ℚ)
  Character.update { c with position := (px, py) } dt

/-- The `while sprite.feet.collidelist(all_collisions) > -1` loop
(objects.py:426-430), with explicit fuel for the unbounded Python loop
and an explicit stream `r` of sign draws starting at index `k`.  Returns
the cleared sprite and the next stream index, or `none` when the fuel is
exhausted (the Python loop is still running). -/
def exitLoop (allCollisions : List Rect) (dt : ℚ) (r : Nat → Bool) :
    Nat → Nat → Character → Option (Character × Nat)
  | 0, _, _ => none
  | fuel + 1, k, c =>
    match c.feet.collidelist allCollisions with
    | none => some (c, k)
    | some i =>
      exitLoop allCollisions dt r fuel (k + 2)
        (exitDisplace (allCollisions.getD i ⟨0, 0, 0, 0⟩)
          (choiceSign (r k)) (choiceSign (r (k + 1))) dt c)

/-- The loop of objects.py:426-430 terminates on this input for some
amount of fuel. -/
def loopTerminates (allCollisions : List Rect) (dt : ℚ) (r : Nat → Bool)
    (k : Nat) (c : Character) : Prop :=
  ∃ fuel out, exitLoop allCollisions dt r fuel k c = some out

/-- The per-sprite wall pass (objects.py:414-415): roll the sprite back
when its feet overlap some wall. -/
def wallAdjust (walls : List Rect) (dt : ℚ) (c : Character) : Character :=
  if (c.feet.collidelist walls).isSome then c.move_back dt else c

/-- Mutable state threaded through the sprite loop of `GameMap.update`:
the hero object, the class-level quest registry, the local `dialog`
variable, the local `map_name` variable, and the random stream index. -/
structure UpdAcc where
  hero : Character
  quests : QuestReg
  dialog : Option String
  map_name : String
  k : Nat
deriving DecidableEq

/-- The dialog branch for a non-hero sprite (objects.py:434-450).
`none` models a Python `KeyError` (a missing dialog line or a missing
quest registry key). -/
def dialogStep (sprite : Character) (acc : UpdAcc) : Option UpdAcc :=
  if acc.hero.talking && !truthy acc.dialog then
    if sprite.rect.colliderect acc.hero.rect then
      let hero := { acc.hero with talkingwho := some sprite.name }
      let quest_name := sprite.name ++ "_quest"
      if !truthy hero.quest then
        match List.lookup "hello" sprite.dialogs with
        | none => none
        | some d =>
          let hero := { hero with quest := some quest_name }
          match QuestReg.find acc.quests (some quest_name) with
          | none => none
          | some _ =>
            some { acc with
              hero := hero
              dialog := some d
              quests := QuestReg.setFuture acc.quests (some quest_name) (some 1) }
      else
        if hero.quest == some quest_name then
          match QuestReg.find acc.quests hero.quest with
          | none => none
          | some q =>
            if q.status == some 1 then
              match List.lookup "what" sprite.dialogs with
              | none => none
              | some d => some { acc with hero := hero, dialog := some d }
            else
              some { acc with hero := hero }
        else
          match List.lookup "goaway" sprite.dialogs with
          | none => none
          | some d => some { acc with hero := hero, dialog := some d }
    else
      some acc
  else
    some acc

/-- Processing of the hero element of the sprite loop (objects.py:412-432):
wall pass, then the exit branch when the sprite is named `chewie_00`,
else the dialog branch applied to the hero itself. -/
def heroStep (walls exits : List Rect) (exit_objs : List TmxObject)
    (dt : ℚ) (fuel : Nat) (r : Nat → Bool) (acc : UpdAcc) : Option UpdAcc :=
  let c1 := wallAdjust walls dt acc.hero
  let acc := { acc with hero := c1 }
  if c1.name = "chewie_00" then
    match c1.feet.collidelist exits with
    | none => some acc
    | some i =>
      Option.map
        (fun p => { acc with
          hero := p.1
          k := p.2
          map_name := (exit_objs.getD i ⟨"", "", ⟨0, 0, 0, 0⟩⟩).name })
        (exitLoop (exits ++ walls) dt r fuel acc.k c1)
  else
    dialogStep c1 acc

/-- Processing of a non-hero element of the sprite loop
(objects.py:412-450): wall pass, then the exit branch for a sprite named
`chewie_00`, else the dialog branch against the map's hero.  The second
component accumulates the processed sprites in order. -/
def npcStep (walls exits : List Rect) (exit_objs : List TmxObject)
    (dt : ℚ) (fuel : Nat) (r : Nat → Bool)
    (st : UpdAcc × List Character) (c0 : Character) :
    Option (UpdAcc × List Character) :=
  let acc := st.1
  let c1 := wallAdjust walls dt c0
  if c1.name = "chewie_00" then
    match c1.feet.collidelist exits with
    | none => some (acc, st.2 ++ [c1])
    | some i =>
      Option.map
        (fun p => ({ acc with
          k := p.2
          map_name := (exit_objs.getD i ⟨"", "", ⟨0, 0, 0, 0⟩⟩).name }, st.2 ++ [p.1]))
        (exitLoop (exits ++ walls) dt r fuel acc.k c1)
  else
    Option.map (fun acc' => (acc', st.2 ++ [c1])) (dialogStep c1 acc)

/-- Lines 452-459 of `GameMap.update`: publish a resolved dialog while
talking, otherwise clear the talking partner; package the result. -/
def updateFinish (m : GameMap) (st : UpdAcc × List Character) :
    GameMap × QuestReg × String :=
  let acc2 := st.1
  if acc2.hero.talking && truthy acc2.dialog then
    ({ m with hero := acc2.hero, characters := st.2, dialog := acc2.dialog },
      acc2.quests, acc2.map_name)
  else
    ({ m with hero := { acc2.hero with talkingwho := none }, characters := st.2 },
      acc2.quests, acc2.map_name)

/-- `GameMap.update` (objects.py:398-459).  Inputs beyond the source's
`(dt, current_map)`: the class-level quest registry passed explicitly,
fuel for the unbounded exit loop, and the stream of random sign draws.
Returns the updated map, the updated registry and the tick's map name,
or `none` when the exit loop's fuel is exhausted or a dict access
raises `KeyError`. -/
def GameMap.update (m : GameMap) (quests : QuestReg) (dt : ℚ)
    (current_map : String) (fuel : Nat) (r : Nat → Bool) :
    Option (GameMap × QuestReg × String) :=
  let hero1 := m.hero.update dt
  let chars1 := m.characters.map (fun c => c.update dt)
  let acc0 : UpdAcc :=
    { hero := hero1, quests := quests, dialog := none
      map_name := current_map, k := 0 }
  (heroStep m.walls m.exits m.exit_objs dt fuel r acc0).bind fun acc1 =>
    Option.map (updateFinish m)
      (chars1.foldlM (npcStep m.walls m.exits m.exit_objs dt fuel r) (acc1, []))

/-- `config.MOVE_SPEED` (config.py): 200 pixels per second. -/
def MOVE_SPEED : ℚ := 200

/-- The guard `random.randint(0, 150) == 0` of objects.py:383: the draw
is uniform over the 151 values 0..150 inclusive. -/
def velocityCommit (d2 : Fin 151) : Bool := d2.val = 0

/-- One NPC's wander step of `GameMap.move_characters`
(objects.py:367-396), with the three uniform draws explicit: `d1` for
`random.randint(0, 100)` (101 values), `dir` for
`random.choice([1, 2, 3, 4])`, `d2` for `random.randint(0, 150)`
(151 values).  An NPC touching the hero's render rect is skipped. -/
def moveCharacterStep (hero : Character) (d1 : Fin 101) (dir : Fin 4)
    (d2 : Fin 151) (c : Character) : Character :=
  if c.rect.colliderect hero.rect then c
  else
    let c :=
      if d1.val < 65 then { c with moving_direction := 0 }
      else { c with moving_direction := dir.val + 1 }
    if velocityCommit d2 then
      let vx : ℚ :=
        if c.moving_direction = 4 then MOVE_SPEED
        else if c.moving_direction = 3 then -MOVE_SPEED else 0
      let vy : ℚ :=
        if c.moving_direction = 2 then MOVE_SPEED
        else if c.moving_direction = 1 then -MOVE_SPEED else 0
      { c with velocity := (vx, vy) }
    else c

/-- The `pygame.key.get_pressed` block of `GameEngine.handle_input`
(objects.py:583-597): per-axis `if/elif/else` chains writing the hero's
velocity. -/
def applyMovementInput (up down left right : Bool) (hero : Character) : Character :=
  let vy : ℚ := if up then -MOVE_SPEED else if down then MOVE_SPEED else 0
  let vx : ℚ := if left then -MOVE_SPEED else if right then MOVE_SPEED else 0
  { hero with velocity := (vx, vy) }

/-- The `K_SPACE` branch of `GameEngine.handle_input`
(objects.py:565-572): flip the talking bit; when it turned off, clear
the talking partner and the map dialog, then commit
`quests[hero.quest].status := quests[hero.quest].future_status`.
`Except.error` models the `KeyError` of indexing the registry with an
absent key (in particular the key `None`). -/
def handleSpaceKey (m : GameMap) (quests : QuestReg) :
    Except String (GameMap × QuestReg) :=
  let hero := { m.hero with talking := !m.hero.talking }
  if !hero.talking then
    let hero := { hero with talkingwho := none }
    match QuestReg.find quests hero.quest with
    | none => Except.error "KeyError"
    | some q =>
      Except.ok ({ m with hero := hero, dialog := none },
        QuestReg.setStatus quests hero.quest q.future_status)
  else
    Except.ok ({ m with hero := hero }, quests)

/-- The per-map static data read from a tmx file by `GameMap.__init__`
(objects.py:261-275): the wall, exit and zone layers, the optional hero
start position, and the map rect's center used as the default hero
position. -/
structure MapData where
  walls : List Rect
  exit_objs : List TmxObject
  zones : List Rect
  hero_start_postion : Option (ℚ × ℚ)
  map_center : ℚ × ℚ
deriving DecidableEq

/-- `GameMap.__init__` (objects.py:230-312) for the engine's call sites:
a hero object is passed in, `hero_x`/`hero_y` are not, so the hero is
put at the center of the map (the position setter writes only
`_position`; rect and feet stay as constructed). -/
def GameMap.init (data : MapData) (hero : Character) : GameMap :=
  { walls := data.walls
    exit_objs := data.exit_objs
    zones := data.zones
    hero_start_postion := data.hero_start_postion
    dialog := none
    characters := []
    hero := { hero with position := data.map_center } }

/-- An NPC entry of the `characters` list of `GameEngine.__init__`
(objects.py:481-506). -/
structure NPCSpec where
  name : String
  x : ℚ
  y : ℚ
  dialogs : List (String × String)
deriving DecidableEq

/-- `GameMap.add_characters` (objects.py:330-340): instantiate one fresh
`Character` per spec (ids from `idBase`), then write its `_position`
fields and dialog table directly (boxes stay as constructed). -/
def GameMap.add_characters (m : GameMap) (specs : List NPCSpec)
    (idBase : Nat) (imgW imgH : Int) : GameMap :=
  { m with characters := m.characters ++ specs.enum.map (fun p =>
      { Character.init (idBase + p.1) p.2.name imgW imgH with
          position := (p.2.x, p.2.y)
          dialogs := p.2.dialogs }) }

/-- Write a map's hero `_position` fields directly
(objects.py:531-535). -/
def GameMap.setHeroPos (m : GameMap) (p : ℚ × ℚ) : GameMap :=
  { m with hero := { m.hero with position := p } }

/-- The two NPCs placed on the main map by `GameEngine.__init__`
(objects.py:481-506). -/
def engineNPCSpecs : List NPCSpec :=
  [ { name := "chewie_04", x := 2240, y := 10044
      dialogs := [("hello", "Hello world!"), ("what", "Go find my thing dummy."),
        ("salutation", "What's going on?"), ("goaway", "You look busy. Find me later."),
        ("bye", "Goodbye")] },
    { name := "chewie_13", x := 4416, y := 9432
      dialogs := [("hello", "Bon jour!"), ("what", "Rawrr rrr warrwrrr."),
        ("salutation", "Comment allez-vous?"), ("goaway", "Find me later dude."),
        ("bye", "Au revoir!")] } ]

/-- The quest registry built by `GameEngine.__init__`
(objects.py:508-509). -/
def initQuests : QuestReg :=
  [ (some "chewie_04_quest",
      Quest.init "chewie04_quest" "plains_portal.tmx"
        { name := "Green Light Saber", graphic_file := "light_saber.png", x := 400, y := 400 }),
    (some "chewie_13_quest",
      Quest.init "chewie13_quest" "plains_portal.tmx"
        { name := "Green Light Saber", graphic_file := "light_saber.png", x := 400, y := 400 }) ]

/-- The map-loading loop of `GameEngine.__init__` (objects.py:519-537):
every iteration constructs the `GameMap` with a freshly allocated
`Character()` as its hero (`idx` is the allocation counter); the main
map then gets the NPCs and the fixed hero position, every other map gets
its hero moved to the map's start position (`None` there is the Python
`TypeError` of subscripting `None`, modelled as `none`). -/
def initMapsAux (imgW imgH : Int) :
    Nat → List (String × MapData) → Option (List (String × GameMap))
  | _, [] => some []
  | idx, (name, data) :: rest =>
    let gm := GameMap.init data (Character.init idx "chewie_00" imgW imgH)
    let gm? : Option GameMap :=
      if name = "main_map.tmx" then
        some (((gm.add_characters engineNPCSpecs (1000000 + idx) imgW imgH)).setHeroPos
          (2200, 10000))
      else
        match data.hero_start_postion with
        | none => none
        | some p => some (gm.setHeroPos p)
    match gm?, initMapsAux imgW imgH (idx + 1) rest with
    | some g, some tail => some ((name, g) :: tail)
    | _, _ => none

/-- The engine's loaded map dictionary (objects.py:515-537), as an
association list in load order. -/
def GameEngine.initMaps (mapList : List (String × MapData)) (imgW imgH : Int) :
    Option (List (String × GameMap)) :=
  initMapsAux imgW imgH 0 mapList

/-- `GameMap.update` on this input returns for some amount of loop
fuel. -/
def updateTerminates (m : GameMap) (quests : QuestReg) (dt : ℚ)
    (current_map : String) (r : Nat → Bool) : Prop :=
  ∃ fuel res, GameMap.update m quests dt current_map fuel r = some res

/-- Two registries agreeing on every committed status. -/
def statusEq (a b : QuestReg) : Prop :=
  ∀ k, (QuestReg.find a k).map Quest.status = (QuestReg.find b k).map Quest.status

/-! Concrete fixtures used by counterexamples and witnesses. -/

/-- A random stream that always draws `-1` in `random.choice([-1, 1])`. -/
def constTrueStream : Nat → Bool := fun _ => true

/-- A random stream that always draws `1` in `random.choice([-1, 1])`. -/
def constFalseStream : Nat → Bool := fun _ => false

/-- A freshly constructed hero with a 32 x 32 sprite. -/
def heroFix : Character := Character.init 0 "chewie_00" 32 32

/-- A freshly constructed NPC placed away from the hero. -/
def npcFix : Character :=
  { Character.init 1 "chewie_04" 32 32 with rect := ⟨1000, 1000, 32, 32⟩ }

/-- Map with one exit whose object name and type differ: the name is
`to_plains`, the type carries `plains_portal.tmx`. -/
def mapC1 : GameMap :=
  { walls := []
    exit_objs := [⟨"to_plains", "plains_portal.tmx", ⟨0, 0, 20, 40⟩⟩]
    zones := [], hero_start_postion := none, dialog := none
    characters := [], hero := heroFix }

/-- Map where the hero both hits a wall after integration and stands on
an exit after the rollback. -/
def mapC5 : GameMap :=
  { walls := [⟨30, 0, 20, 40⟩]
    exit_objs := [⟨"plains_portal.tmx", "portal", ⟨0, 0, 20, 40⟩⟩]
    zones := [], hero_start_postion := none, dialog := none
    characters := [], hero := { heroFix with velocity := (10, 0) } }

/-- Map whose single 64 x 64 exit rectangle re-captures the hero's feet
box whenever both displacement signs are `-1`. -/
def mapTrap : GameMap :=
  { walls := []
    exit_objs := [⟨"plains_portal.tmx", "portal", ⟨0, 0, 64, 64⟩⟩]
    zones := [], hero_start_postion := none, dialog := none
    characters := [], hero := heroFix }

/-- The hero state with which `GameMap.update mapTrap` enters the exit
correction loop. -/
def cTrapC : Character := Character.update mapTrap.hero 1

/-- The hero state after one `(-1, -1)` displacement of the loop on
`mapTrap`: its feet box still overlaps the exit, and further `(-1, -1)`
displacements reproduce it exactly. -/
def trapS1 : Character := exitDisplace ⟨0, 0, 64, 64⟩ (-1) (-1) 1 cTrapC

/-- Map with no geometry and no NPCs. -/
def mapPlain : GameMap :=
  { walls := [], exit_objs := [], zones := [], hero_start_postion := none
    dialog := none, characters := [], hero := heroFix }

/-- An NPC that runs into the wall of `mapW5` this tick. -/
def npcW5 : Character :=
  { Character.init 1 "chewie_04" 32 32 with velocity := (10, 0) }

/-- Map with one wall, no exits, and a hero and an NPC both moving into
the wall. -/
def mapW5 : GameMap :=
  { walls := [⟨30, 0, 20, 40⟩]
    exit_objs := []
    zones := [], hero_start_postion := none, dialog := none
    characters := [npcW5], hero := { heroFix with velocity := (10, 0) } }

/-- Map whose hero is in talking mode while holding no active quest. -/
def mapTalk : GameMap :=
  { mapPlain with hero := { heroFix with talking := true } }

/-- A small tmx data set with a start position. -/
def demoData : MapData :=
  { walls := [], exit_objs := [], zones := []
    hero_start_postion := some (5, 5), map_center := (50, 50) }

/-- Two loaded maps, as in a run whose resources hold `main_map.tmx`
and `plains_portal.tmx`. -/
def demoMaps : List (String × MapData) :=
  [("main_map.tmx", demoData), ("plains_portal.tmx", demoData)]

/-- Number of draws of `random.randint(0, 100)` for which the wander
step of objects.py:376 sets "no movement intent". -/
def wanderNoIntentCount : Nat :=
  ((Finset.univ : Finset (Fin 101)).filter
    (fun d1 => (moveCharacterStep heroFix d1 (0 : Fin 4) (1 : Fin 151) npcFix).moving_direction = 0)).card

/-- Probability, over the uniform draw of `random.randint(0, 100)`, that
the wander step sets "no movement intent". -/
def wanderNoIntentProb : ℚ := (wanderNoIntentCount : ℚ) / 101

/-- Number of draws of `random.randint(0, 150)` for which the wander
step of objects.py:383 commits the intent to the velocity. -/
def wanderCommitCount : Nat :=
  ((Finset.univ : Finset (Fin 151)).filter (fun d2 => velocityCommit d2)).card

/-- Probability, over the uniform draw of `random.randint(0, 150)`, that
the velocity is updated to match the current intent. -/
def wanderCommitProb : ℚ := (wanderCommitCount : ℚ) / 151

end RTS

namespace RTS

theorem Character.update_name (c : Character) (dt : ℚ) : (c.update dt).name = c.name := rfl

theorem Character.move_back_name (c : Character) (dt : ℚ) : (c.move_back dt).name = c.name := rfl

theorem Character.update_velocity (c : Character) (dt : ℚ) :
    (c.update dt).velocity = c.velocity := rfl

theorem Character.move_back_velocity (c : Character) (dt : ℚ) :
    (c.move_back dt).velocity = c.velocity := rfl

/-- Round trip: integrating and then rolling back restores the position. -/
theorem Character.move_back_update (c : Character) (dt dt' : ℚ) :
    ((c.update dt).move_back dt').position = c.position := rfl

/-- Setting a rect's midbottom makes its midbottom that value. -/
theorem Rect.midbottom_setMidbottom (r : Rect) (p : Int × Int) :
    (r.setMidbottom p).midbottom = p := by
  simp [Rect.midbottom, Rect.setMidbottom]

/-- C6: for every entity, every position, every velocity and every `dt`,
integrating (`Character.update`) and then rolling back
(`Character.move_back`) leaves the position exactly equal to the
position before the integration. -/
theorem claim_C6 (c : Character) (dt : ℚ) :
    ((c.update dt).move_back dt).position = c.position := rfl

/-- C7 counterexample: the forced placement of a destination map's hero
at its spawn point (objects.py:618-620) writes only the position fields,
so on a hero whose boxes were never synchronized by an integration (the
state every non-current map's hero is in after `GameEngine.__init__`)
the feet box bottom-center differs from the render box bottom-center
after the placement. -/
theorem claim_C7_cex :
    (forcePlaceHero (GameMap.init demoData heroFix).hero (5, 5)).feet.midbottom ≠
      (forcePlaceHero (GameMap.init demoData heroFix).hero (5, 5)).rect.midbottom := by
  decide

/-- C7 amended: the bottom-center of the feet box equals the bottom-center
of the render box after `Character.update` and after
`Character.move_back`, which recompute both boxes; forced placement
(`forcePlaceHero`) recomputes neither box, so it preserves the equality
exactly when it already held, and on a freshly constructed entity it
does not establish it. -/
theorem claim_C7 (c : Character) (dt : ℚ) (p : ℚ × ℚ) :
    (c.update dt).feet.midbottom = (c.update dt).rect.midbottom ∧
    (c.move_back dt).feet.midbottom = (c.move_back dt).rect.midbottom ∧
    (forcePlaceHero c p).feet = c.feet ∧ (forcePlaceHero c p).rect = c.rect := by
  refine ⟨?_, ?_, rfl, rfl⟩ <;>
    simp [Character.update, Character.move_back, Rect.midbottom_setMidbottom]

/-- C8 counterexample: holding both up and down leaves the hero's
vertical velocity at `-MOVE_SPEED` (the `if pressed[K_UP] / elif
pressed[K_DOWN]` chain of objects.py:585-590 gives up priority), not at
zero as the claim states. -/
theorem claim_C8_cex :
    (applyMovementInput true true false false heroFix).velocity.2 = -200 ∧
    (-200 : ℚ) ≠ 0 := by
  exact ⟨rfl, by norm_num⟩

/-- C8 amended: when both intents of one axis are held the first branch
of the `if/elif` chain wins (up beats down, left beats right), giving
`-MOVE_SPEED` on that axis rather than zero; one intent on each axis
(e.g. up and left) still yields nonzero velocity on both axes
simultaneously. -/
theorem claim_C8 (hero : Character) (u d l r : Bool) :
    (applyMovementInput true true l r hero).velocity.2 = -MOVE_SPEED ∧
    (applyMovementInput u d true true hero).velocity.1 = -MOVE_SPEED ∧
    (applyMovementInput true false true false hero).velocity.1 ≠ 0 ∧
    (applyMovementInput true false true false hero).velocity.2 ≠ 0 := by
  refine ⟨rfl, rfl, ?_, ?_⟩ <;> norm_num [applyMovementInput, MOVE_SPEED]

theorem wanderNoIntentCount_eq : wanderNoIntentCount = 65 := by decide

theorem wanderCommitCount_eq : wanderCommitCount = 1 := by decide

/-- C9 counterexample: the wander step's dice are
`random.randint(0, 100) < 65` and `random.randint(0, 150) == 0`, both
inclusive draws, so the probability of "no movement intent" is `65/101`,
not exactly 65%, and the probability of committing the intent to the
velocity is `1/151`, not exactly `1/150`. -/
theorem claim_C9_cex :
    wanderNoIntentProb ≠ 65 / 100 ∧ wanderCommitProb ≠ 1 / 150 := by
  unfold wanderNoIntentProb wanderCommitProb
  rw [wanderNoIntentCount_eq, wanderCommitCount_eq]
  norm_num

/-- C9 amended: for an NPC not touching the hero's render box, the
probability over the uniform draw of `random.randint(0, 100)` that the
movement intent is set to "no movement" is exactly `65/101`, and the
probability over the uniform draw of `random.randint(0, 150)` that the
velocity is updated to match the current intent is exactly `1/151`. -/
theorem claim_C9 :
    wanderNoIntentProb = 65 / 101 ∧ wanderCommitProb = 1 / 151 := by
  unfold wanderNoIntentProb wanderCommitProb
  rw [wanderNoIntentCount_eq, wanderCommitCount_eq]
  norm_num

/-- C10: toggling talking mode off while the hero holds no active quest
makes the commit step of `GameEngine.handle_input` (objects.py:572)
index the quest registry with the key `None`, which is absent, raising
`KeyError` instead of being a no-op. -/
theorem claim_C10 (m : GameMap) (quests : QuestReg)
    (ht : m.hero.talking = true) (hq : m.hero.quest = none)
    (hk : QuestReg.find quests none = none) :
    handleSpaceKey m quests = Except.error "KeyError" := by
  simp [handleSpaceKey, ht, hq, hk]

/-- C10 witness: a concrete talking hero with no staged quest and the
engine's startup registry. -/
theorem claim_C10_witness :
    mapTalk.hero.talking = true ∧ mapTalk.hero.quest = none ∧
    handleSpaceKey mapTalk initQuests = Except.error "KeyError" :=
  ⟨rfl, rfl, claim_C10 mapTalk initQuests rfl rfl rfl⟩

theorem trapS1_fixed : exitDisplace ⟨0, 0, 64, 64⟩ (-1) (-1) 1 trapS1 = trapS1 := by
  with_unfolding_all decide

theorem trapS1_loop (n : Nat) : ∀ k,
    exitLoop [⟨0, 0, 64, 64⟩] 1 constTrueStream n k trapS1 = none := by
  induction n with
  | zero => intro k; rfl
  | succ n ih =>
    intro k
    have h1 : exitLoop [⟨0, 0, 64, 64⟩] 1 constTrueStream (n + 1) k trapS1
        = exitLoop [⟨0, 0, 64, 64⟩] 1 constTrueStream n (k + 2)
            (exitDisplace ⟨0, 0, 64, 64⟩ (-1) (-1) 1 trapS1) := by
      with_unfolding_all rfl
    rw [h1, trapS1_fixed]
    exact ih (k + 2)

theorem trap_loop_none (fuel : Nat) (k : Nat) :
    exitLoop [⟨0, 0, 64, 64⟩] 1 constTrueStream fuel k cTrapC = none := by
  cases fuel with
  | zero => rfl
  | succ n =>
    have h1 : exitLoop [⟨0, 0, 64, 64⟩] 1 constTrueStream (n + 1) k cTrapC
        = exitLoop [⟨0, 0, 64, 64⟩] 1 constTrueStream n (k + 2)
            (exitDisplace ⟨0, 0, 64, 64⟩ (-1) (-1) 1 cTrapC) := by
      with_unfolding_all rfl
    rw [h1]
    exact trapS1_loop n (k + 2)

/-- C4 counterexample: on `mapTrap` (one 64 x 64 exit rectangle, no
walls, hero at rest on it) with the random stream that always draws
`-1`, every displacement of the exit correction loop reproduces the same
still-colliding state, so `GameMap.update` never returns for any amount
of fuel: the loop does not terminate for every geometry and random
stream. -/
theorem claim_C4_cex : ¬ updateTerminates mapTrap [] 1 "main_map.tmx" constTrueStream := by
  rintro ⟨fuel, res, h⟩
  have hhs : heroStep mapTrap.walls mapTrap.exits mapTrap.exit_objs 1 fuel constTrueStream
      { hero := Character.update mapTrap.hero 1, quests := [], dialog := none,
        map_name := "main_map.tmx", k := 0 } = none := by
    have hkey : heroStep mapTrap.walls mapTrap.exits mapTrap.exit_objs 1 fuel constTrueStream
        { hero := Character.update mapTrap.hero 1, quests := [], dialog := none,
          map_name := "main_map.tmx", k := 0 }
        = Option.map (fun p => UpdAcc.mk p.1 [] none "plains_portal.tmx" p.2)
            (exitLoop [⟨0, 0, 64, 64⟩] 1 constTrueStream fuel 0 cTrapC) := by
      with_unfolding_all rfl
    rw [hkey, trap_loop_none fuel 0]
    rfl
  simp only [GameMap.update] at h
  rw [hhs] at h
  exact Option.noConfusion h

/-- C4 amended: whenever the exit correction loop does return (is given
enough fuel), the returned hero state's feet box overlaps no
wall-or-exit rectangle; termination itself is not guaranteed for every
geometry and random stream (see the counterexample). -/
theorem claim_C4 (allCollisions : List Rect) (dt : ℚ) (r : Nat → Bool) :
    ∀ (fuel k : Nat) (c : Character) (out : Character × Nat),
      exitLoop allCollisions dt r fuel k c = some out →
      out.1.feet.collidelist allCollisions = none := by
  intro fuel
  induction fuel with
  | zero => intro k c out h; exact Option.noConfusion h
  | succ n ih =>
    intro k c out h
    cases hc : c.feet.collidelist allCollisions with
    | none =>
      have h2 : some (c, k) = some out := by
        rw [exitLoop, hc] at h
        exact h
      cases h2
      exact hc
    | some i =>
      rw [exitLoop, hc] at h
      exact ih _ _ _ h

theorem initMapsAux_hero_id (imgW imgH : Int) :
    ∀ (l : List (String × MapData)) (idx : Nat) (maps : List (String × GameMap)),
      initMapsAux imgW imgH idx l = some maps →
      ∀ (i : Nat) (e : String × GameMap), maps.get? i = some e → e.2.hero.id = idx + i := by
  intro l
  induction l with
  | nil =>
    intro idx maps h i e he
    injection h with h'
    subst h'
    cases i <;> exact Option.noConfusion he
  | cons p t ih =>
    intro idx maps h i e he
    obtain ⟨name, data⟩ := p
    simp only [initMapsAux] at h
    by_cases hn : name = "main_map.tmx"
    · rw [if_pos hn] at h
      cases hrec : initMapsAux imgW imgH (idx + 1) t with
      | none => rw [hrec] at h; exact Option.noConfusion h
      | some tail =>
        rw [hrec] at h
        injection h with h'
        subst h'
        cases i with
        | zero => injection he with he'; subst he'; rfl
        | succ n =>
          have := ih (idx + 1) tail hrec n e he
          omega
    · rw [if_neg hn] at h
      cases hsp : data.hero_start_postion with
      | none => rw [hsp] at h; exact Option.noConfusion h
      | some pos =>
        rw [hsp] at h
        cases hrec : initMapsAux imgW imgH (idx + 1) t with
        | none => rw [hrec] at h; exact Option.noConfusion h
        | some tail =>
          rw [hrec] at h
          injection h with h'
          subst h'
          cases i with
          | zero => injection he with he'; subst he'; rfl
          | succ n =>
            have := ih (idx + 1) tail hrec n e he
            omega

/-- C2 counterexample: the map-loading loop of `GameEngine.__init__`
(objects.py:525) constructs every `GameMap` with a freshly allocated
`Character()` as its hero; with two loaded maps the two heroes are
distinct entities (allocation ids 0 and 1), not one shared entity. -/
theorem claim_C2_cex :
    (GameEngine.initMaps demoMaps 32 32).bind
        (fun l => (l.get? 0).map (fun e => e.2.hero.id)) = some 0 ∧
    (GameEngine.initMaps demoMaps 32 32).bind
        (fun l => (l.get? 1).map (fun e => e.2.hero.id)) = some 1 ∧
    (0 : Nat) ≠ 1 := by
  refine ⟨rfl, rfl, by norm_num⟩

/-- C2 amended: each loaded map owns its own hero entity: the loading
loop allocates one fresh `Character` per map, so the heroes of two
distinct loaded maps are distinct entities; a map switch repositions the
destination map's own hero at its spawn point and hands control to that
hero, rather than relocating one shared entity. -/
theorem claim_C2 (mapList : List (String × MapData)) (imgW imgH : Int)
    (maps : List (String × GameMap)) (i j : Nat) (ei ej : String × GameMap)
    (hload : GameEngine.initMaps mapList imgW imgH = some maps)
    (hi : maps.get? i = some ei) (hj : maps.get? j = some ej) (hij : i ≠ j) :
    ei.2.hero.id ≠ ej.2.hero.id := by
  have h1 := initMapsAux_hero_id imgW imgH mapList 0 maps hload i ei hi
  have h2 := initMapsAux_hero_id imgW imgH mapList 0 maps hload j ej hj
  omega

/-- C2 witness: the two demo maps loaded by the engine loop. -/
theorem claim_C2_witness :
    ∃ maps, GameEngine.initMaps demoMaps 32 32 = some maps ∧
      ∃ e0 e1, maps.get? 0 = some e0 ∧ maps.get? 1 = some e1 ∧
        e0.2.hero.id ≠ e1.2.hero.id :=
  ⟨_, rfl, _, _, rfl, rfl,
    claim_C2 demoMaps 32 32 _ 0 1 _ _ rfl rfl rfl (by norm_num)⟩

theorem statusEq_refl (a : QuestReg) : statusEq a a := fun _ => rfl

theorem statusEq_trans {a b c : QuestReg} (h1 : statusEq a b) (h2 : statusEq b c) :
    statusEq a c := fun k => (h1 k).trans (h2 k)

theorem find_cons (pk : Option String) (pv : Quest) (t : QuestReg) (k' : Option String) :
    QuestReg.find ((pk, pv) :: t) k'
      = if k' == pk then some pv else QuestReg.find t k' := by
  cases hb : k' == pk <;> simp [QuestReg.find, List.lookup, hb]

theorem statusEq_setFuture (reg : QuestReg) (k : Option String) (v : Option Int) :
    statusEq (QuestReg.setFuture reg k v) reg := by
  intro k'
  induction reg with
  | nil => rfl
  | cons p t ih =>
    obtain ⟨pk, pv⟩ := p
    have hcons : QuestReg.setFuture ((pk, pv) :: t) k v
        = (if pk = k then (pk, { pv with future_status := v }) else (pk, pv))
            :: QuestReg.setFuture t k v := by
      simp [QuestReg.setFuture]
    rw [hcons]
    by_cases hp : pk = k
    · rw [if_pos hp, find_cons, find_cons]
      cases hb : k' == pk
      · simpa [hb] using ih
      · simp [hb]
    · rw [if_neg hp, find_cons, find_cons]
      cases hb : k' == pk
      · simpa [hb] using ih
      · simp [hb]

theorem wallAdjust_name (w : List Rect) (dt : ℚ) (c : Character) :
    (wallAdjust w dt c).name = c.name := by
  unfold wallAdjust; split <;> rfl

theorem wallAdjust_velocity (w : List Rect) (dt : ℚ) (c : Character) :
    (wallAdjust w dt c).velocity = c.velocity := by
  unfold wallAdjust; split <;> rfl

theorem wallAdjust_position_of_collide {w : List Rect} {dt : ℚ} {c : Character}
    (h : (c.feet.collidelist w).isSome = true) :
    (wallAdjust w dt c).position = c.old_position := by
  unfold wallAdjust; rw [if_pos h]; rfl

theorem exitLoop_velocity (a : List Rect) (dt : ℚ) (r : Nat → Bool) :
    ∀ (fuel k : Nat) (c : Character) (out : Character × Nat),
      exitLoop a dt r fuel k c = some out → out.1.velocity = c.velocity := by
  intro fuel
  induction fuel with
  | zero => intro k c out h; exact Option.noConfusion h
  | succ n ih =>
    intro k c out h
    cases hc : c.feet.collidelist a with
    | none =>
      have h2 : some (c, k) = some out := by rw [exitLoop, hc] at h; exact h
      cases h2; rfl
    | some i =>
      rw [exitLoop, hc] at h
      exact (ih _ _ _ h).trans rfl

/-- Everything `dialogStep` leaves untouched: the tick's map name, the
random index, the hero's motion state, and every quest's committed
status. -/
theorem dialogStep_spec {s : Character} {acc acc' : UpdAcc}
    (h : dialogStep s acc = some acc') :
    acc'.map_name = acc.map_name ∧ acc'.k = acc.k ∧
    acc'.hero.position = acc.hero.position ∧
    acc'.hero.velocity = acc.hero.velocity ∧
    acc'.hero.talking = acc.hero.talking ∧
    statusEq acc'.quests acc.quests := by
  simp only [dialogStep] at h
  repeat' split at h
  all_goals
    first
    | exact Option.noConfusion h
    | (cases h; exact ⟨rfl, rfl, rfl, rfl, rfl, statusEq_refl _⟩)
    | (cases h; exact ⟨rfl, rfl, rfl, rfl, rfl, statusEq_setFuture _ _ _⟩)

theorem npcStep_statusEq {w e : List Rect} {eo : List TmxObject} {dt : ℚ}
    {fuel : Nat} {r : Nat → Bool} {st : UpdAcc × List Character} {c0 : Character}
    {res : UpdAcc × List Character}
    (h : npcStep w e eo dt fuel r st c0 = some res) :
    statusEq res.1.quests st.1.quests := by
  simp only [npcStep] at h
  split at h
  · split at h
    · cases h; exact statusEq_refl _
    · rw [Option.map_eq_some'] at h
      obtain ⟨p, hp, hres⟩ := h
      subst hres
      exact statusEq_refl _
  · rw [Option.map_eq_some'] at h
    obtain ⟨acc', hd, hres⟩ := h
    subst hres
    exact (dialogStep_spec hd).2.2.2.2.2

theorem heroStep_statusEq {w e : List Rect} {eo : List TmxObject} {dt : ℚ}
    {fuel : Nat} {r : Nat → Bool} {acc acc' : UpdAcc}
    (h : heroStep w e eo dt fuel r acc = some acc') :
    statusEq acc'.quests acc.quests := by
  simp only [heroStep] at h
  split at h
  · split at h
    · cases h; exact statusEq_refl _
    · rw [Option.map_eq_some'] at h
      obtain ⟨p, hp, hres⟩ := h
      subst hres
      exact statusEq_refl _
  · exact (dialogStep_spec h).2.2.2.2.2

theorem heroStep_velocity {w e : List Rect} {eo : List TmxObject} {dt : ℚ}
    {fuel : Nat} {r : Nat → Bool} {acc acc' : UpdAcc}
    (h : heroStep w e eo dt fuel r acc = some acc') :
    acc'.hero.velocity = acc.hero.velocity := by
  simp only [heroStep] at h
  split at h
  · split at h
    · cases h; exact wallAdjust_velocity _ _ _
    · rw [Option.map_eq_some'] at h
      obtain ⟨p, hp, hres⟩ := h
      subst hres
      exact (exitLoop_velocity _ _ _ _ _ _ _ hp).trans (wallAdjust_velocity _ _ _)
  · exact ((dialogStep_spec h).2.2.2.1).trans (wallAdjust_velocity _ _ _)

/-- The exit branch of the hero pass fixes the tick's map name from the
first overlapped exit object. -/
theorem heroStep_exit {w e : List Rect} {eo : List TmxObject} {dt : ℚ}
    {fuel : Nat} {r : Nat → Bool} {acc acc' : UpdAcc} {i : Nat}
    (hname : acc.hero.name = "chewie_00")
    (hc : (wallAdjust w dt acc.hero).feet.collidelist e = some i)
    (h : heroStep w e eo dt fuel r acc = some acc') :
    acc'.map_name = (eo.getD i ⟨"", "", ⟨0, 0, 0, 0⟩⟩).name := by
  simp only [heroStep] at h
  rw [if_pos (by rw [wallAdjust_name]; exact hname)] at h
  simp only [hc] at h
  rw [Option.map_eq_some'] at h
  obtain ⟨p, hp, hres⟩ := h
  subst hres
  rfl

/-- Without an exit hit, the hero pass is exactly the wall pass. -/
theorem heroStep_noexit {w e : List Rect} {eo : List TmxObject} {dt : ℚ}
    {fuel : Nat} {r : Nat → Bool} {acc acc' : UpdAcc}
    (hname : acc.hero.name = "chewie_00")
    (hc : (wallAdjust w dt acc.hero).feet.collidelist e = none)
    (h : heroStep w e eo dt fuel r acc = some acc') :
    acc' = { acc with hero := wallAdjust w dt acc.hero } := by
  simp only [heroStep] at h
  rw [if_pos (by rw [wallAdjust_name]; exact hname)] at h
  simp only [hc] at h
  exact (Option.some.inj h).symm

theorem foldl_npc_statusEq {w e : List Rect} {eo : List TmxObject} {dt : ℚ}
    {fuel : Nat} {r : Nat → Bool} :
    ∀ (l : List Character) (st res : UpdAcc × List Character),
      List.foldlM (npcStep w e eo dt fuel r) st l = some res →
      statusEq res.1.quests st.1.quests := by
  intro l
  induction l with
  | nil =>
    intro st res h
    injection h with h'
    subst h'
    exact statusEq_refl _
  | cons c t ih =>
    intro st res h
    rw [List.foldlM_cons] at h
    cases hs : npcStep w e eo dt fuel r st c with
    | none => rw [hs] at h; exact Option.noConfusion h
    | some s =>
      rw [hs] at h
      exact statusEq_trans (ih s res h) (npcStep_statusEq hs)

/-- Over a list of sprites none of which is named `chewie_00`, the fold
preserves the map name and the hero's motion state, and its output list
is exactly the wall pass applied elementwise. -/
theorem foldl_npc_nonhero {w e : List Rect} {eo : List TmxObject} {dt : ℚ}
    {fuel : Nat} {r : Nat → Bool} :
    ∀ (l : List Character), (∀ c ∈ l, c.name ≠ "chewie_00") →
      ∀ (st res : UpdAcc × List Character),
      List.foldlM (npcStep w e eo dt fuel r) st l = some res →
      res.1.map_name = st.1.map_name ∧
      res.1.hero.position = st.1.hero.position ∧
      res.1.hero.velocity = st.1.hero.velocity ∧
      res.2 = st.2 ++ l.map (wallAdjust w dt) := by
  intro l
  induction l with
  | nil =>
    intro _ st res h
    injection h with h'
    subst h'
    exact ⟨rfl, rfl, rfl, by simp⟩
  | cons c t ih =>
    intro hn st res h
    rw [List.foldlM_cons] at h
    cases hs : npcStep w e eo dt fuel r st c with
    | none => rw [hs] at h; exact Option.noConfusion h
    | some s =>
      rw [hs] at h
      have hc : c.name ≠ "chewie_00" := hn c (List.mem_cons_self c t)
      have hstep : s.1.map_name = st.1.map_name ∧ s.1.hero.position = st.1.hero.position ∧
          s.1.hero.velocity = st.1.hero.velocity ∧ s.2 = st.2 ++ [wallAdjust w dt c] := by
        simp only [npcStep] at hs
        rw [if_neg (by rw [wallAdjust_name]; exact hc)] at hs
        rw [Option.map_eq_some'] at hs
        obtain ⟨acc', hd, hres⟩ := hs
        subst hres
        obtain ⟨d1, _, d3, d4, _, _⟩ := dialogStep_spec hd
        exact ⟨d1, d3, d4, rfl⟩
      obtain ⟨g1, g2, g3, g4⟩ := ih (fun x hx => hn x (List.mem_cons_of_mem c hx)) s res h
      refine ⟨g1.trans hstep.1, g2.trans hstep.2.1, g3.trans hstep.2.2.1, ?_⟩
      rw [g4, hstep.2.2.2]
      simp

theorem updateFinish_spec (m : GameMap) (st : UpdAcc × List Character) :
    (updateFinish m st).1.hero.position = st.1.hero.position ∧
    (updateFinish m st).1.hero.velocity = st.1.hero.velocity ∧
    (updateFinish m st).1.characters = st.2 ∧
    (updateFinish m st).2.1 = st.1.quests ∧
    (updateFinish m st).2.2 = st.1.map_name := by
  cases hb : st.1.hero.talking && truthy st.1.dialog
  · simp [updateFinish, hb]
  · simp [updateFinish, hb]

/-- C3: the committed status of every quest in the registry changes only
at the dialog-session-close transition of `GameEngine.handle_input`:
`GameMap.update` (which writes `future_status`, possibly several times
across ticks) never changes any quest's committed status, and the space
toggle that turns talking on leaves the registry untouched. -/
theorem claim_C3 :
    (∀ (m : GameMap) (quests : QuestReg) (dt : ℚ) (cm : String) (fuel : Nat)
        (r : Nat → Bool) (res : GameMap × QuestReg × String),
      GameMap.update m quests dt cm fuel r = some res →
      statusEq res.2.1 quests) ∧
    (∀ (m : GameMap) (quests : QuestReg), m.hero.talking = false →
      handleSpaceKey m quests
        = Except.ok ({ m with hero := { m.hero with talking := true } }, quests)) := by
  constructor
  · intro m quests dt cm fuel r res h
    simp only [GameMap.update] at h
    rw [Option.bind_eq_some] at h
    obtain ⟨acc1, hh, h1⟩ := h
    rw [Option.map_eq_some'] at h1
    obtain ⟨pr, hf, hres⟩ := h1
    subst hres
    have e1 : (updateFinish m pr).2.1 = pr.1.quests := (updateFinish_spec m pr).2.2.2.1
    rw [e1]
    exact statusEq_trans (foldl_npc_statusEq _ _ _ hf) (heroStep_statusEq hh)
  · intro m quests ht
    simp [handleSpaceKey, ht]

set_option maxHeartbeats 4000000 in
/-- C3 witness: a concrete update on the engine's startup registry, and
a concrete talk toggle that turns talking on. -/
theorem claim_C3_witness :
    (∃ res, GameMap.update mapPlain initQuests 1 "main_map.tmx" 1 constFalseStream = some res ∧
      (QuestReg.find res.2.1 (some "chewie_04_quest")).map Quest.status
        = (QuestReg.find initQuests (some "chewie_04_quest")).map Quest.status) ∧
    handleSpaceKey mapPlain initQuests
      = Except.ok ({ mapPlain with hero := { mapPlain.hero with talking := true } }, initQuests) := by
  constructor
  · cases hrun : GameMap.update mapPlain initQuests 1 "main_map.tmx" 1 constFalseStream with
    | none =>
      have hs : (GameMap.update mapPlain initQuests 1 "main_map.tmx" 1 constFalseStream).isSome
          = true := by with_unfolding_all decide
      rw [hrun] at hs
      exact absurd hs (by simp)
    | some res =>
      exact ⟨res, rfl,
        claim_C3.1 mapPlain initQuests 1 "main_map.tmx" 1 constFalseStream res hrun
          (some "chewie_04_quest")⟩
  · exact claim_C3.2 mapPlain initQuests rfl

set_option maxHeartbeats 4000000 in
/-- C1 counterexample: on a map whose exit rectangle overlaps the hero's
feet, with the exit object named `to_plains` and its type attribute
carrying `plains_portal.tmx`, `GameMap.update` returns `to_plains` — the
exit object's name — not `plains_portal.tmx`. -/
theorem claim_C1_cex :
    (GameMap.update mapC1 [] 1 "main_map.tmx" 3 constFalseStream).map
        (fun res => res.2.2) = some "to_plains" ∧
    (mapC1.exit_objs.getD 0 ⟨"", "", ⟨0, 0, 0, 0⟩⟩).name = "to_plains" ∧
    (mapC1.exit_objs.getD 0 ⟨"", "", ⟨0, 0, 0, 0⟩⟩).otype = "plains_portal.tmx" ∧
    "to_plains" ≠ "plains_portal.tmx" := by
  exact ⟨by with_unfolding_all rfl, rfl, rfl, by decide⟩

/-- C1 amended: for every tick in which the hero's feet box (after the
wall pass) overlaps an exit rectangle, `GameMap.update` returns the
*name* of the first overlapped exit object; the destination map
identifier must be stored as the exit's name (there is no separate
destination attribute consulted), so an exit named `to_plains` yields
`to_plains`. -/
theorem claim_C1 (m : GameMap) (quests : QuestReg) (dt : ℚ) (cm : String)
    (fuel : Nat) (r : Nat → Bool) (res : GameMap × QuestReg × String) (i : Nat)
    (hname : m.hero.name = "chewie_00")
    (hnpc : ∀ c ∈ m.characters, c.name ≠ "chewie_00")
    (hexit : (wallAdjust m.walls dt (m.hero.update dt)).feet.collidelist m.exits = some i)
    (hupd : GameMap.update m quests dt cm fuel r = some res) :
    res.2.2 = (m.exit_objs.getD i ⟨"", "", ⟨0, 0, 0, 0⟩⟩).name := by
  simp only [GameMap.update] at hupd
  rw [Option.bind_eq_some] at hupd
  obtain ⟨acc1, hh, h1⟩ := hupd
  rw [Option.map_eq_some'] at h1
  obtain ⟨pr, hf, hres⟩ := h1
  subst hres
  have hmn : acc1.map_name = (m.exit_objs.getD i ⟨"", "", ⟨0, 0, 0, 0⟩⟩).name := by
    apply @heroStep_exit m.walls m.exits m.exit_objs dt fuel r
      (UpdAcc.mk (m.hero.update dt) quests none cm 0) acc1 i ?hname hexit hh
    case hname => rw [Character.update_name]; exact hname
  have hfold := foldl_npc_nonhero (List.map (fun c => c.update dt) m.characters)
    (fun c hc => by
      obtain ⟨c0, hc0, rfl⟩ := List.mem_map.mp hc
      rw [Character.update_name]
      exact hnpc c0 hc0)
    (acc1, []) pr hf
  have e2 : (updateFinish m pr).2.2 = pr.1.map_name := (updateFinish_spec m pr).2.2.2.2
  rw [e2, hfold.1, hmn]

set_option maxHeartbeats 4000000 in
/-- C1 witness: the concrete `mapC1` run. -/
theorem claim_C1_witness :
    ∃ res, GameMap.update mapC1 [] 1 "main_map.tmx" 3 constFalseStream = some res ∧
      res.2.2 = (mapC1.exit_objs.getD 0 ⟨"", "", ⟨0, 0, 0, 0⟩⟩).name := by
  cases hrun : GameMap.update mapC1 [] 1 "main_map.tmx" 3 constFalseStream with
  | none =>
    have hs : (GameMap.update mapC1 [] 1 "main_map.tmx" 3 constFalseStream).isSome
        = true := by with_unfolding_all decide
    rw [hrun] at hs
    exact absurd hs (by simp)
  | some res =>
    exact ⟨res, rfl,
      claim_C1 mapC1 [] 1 "main_map.tmx" 3 constFalseStream res 0 rfl
        (fun c hc => absurd hc (List.not_mem_nil c))
        (by with_unfolding_all rfl) hrun⟩

set_option maxHeartbeats 4000000 in
/-- C5 counterexample: on `mapC5` the hero's feet box overlaps the wall
after integration, yet the hero ends the tick at `(35, 50)`, not at its
pre-integration position `(0, 0)`: the rollback puts it on an exit
rectangle and the exit correction loop then relocates it. -/
theorem claim_C5_cex :
    ((mapC5.hero.update 1).feet.collidelist mapC5.walls).isSome = true ∧
    (GameMap.update mapC5 [] 1 "main_map.tmx" 3 constFalseStream).map
        (fun res => res.1.hero.position) = some (35, 50) ∧
    ((35 : ℚ), (50 : ℚ)) ≠ mapC5.hero.position := by
  refine ⟨by with_unfolding_all rfl, by with_unfolding_all rfl, ?_⟩
  with_unfolding_all decide

/-- C5 amended: for a non-hero entity whose feet box overlaps a wall
after this tick's integration, the position at the end of
`GameMap.update` equals exactly the pre-integration position; the same
holds for the hero provided its rolled-back feet box overlaps no exit
rectangle (otherwise the exit correction loop moves it).  Velocity is
unchanged by collision resolution in all cases. -/
theorem claim_C5 (m : GameMap) (quests : QuestReg) (dt : ℚ) (cm : String)
    (fuel : Nat) (r : Nat → Bool) (res : GameMap × QuestReg × String)
    (hname : m.hero.name = "chewie_00")
    (hnpc : ∀ c ∈ m.characters, c.name ≠ "chewie_00")
    (hupd : GameMap.update m quests dt cm fuel r = some res) :
    (res.1.hero.velocity = m.hero.velocity ∧
      (((m.hero.update dt).feet.collidelist m.walls).isSome = true →
        (wallAdjust m.walls dt (m.hero.update dt)).feet.collidelist m.exits = none →
        res.1.hero.position = m.hero.position)) ∧
    (∀ (idx : Nat) (c0 : Character), m.characters.get? idx = some c0 →
      ((c0.update dt).feet.collidelist m.walls).isSome = true →
      ∃ c', res.1.characters.get? idx = some c' ∧
        c'.position = c0.position ∧ c'.velocity = c0.velocity) := by
  simp only [GameMap.update] at hupd
  rw [Option.bind_eq_some] at hupd
  obtain ⟨acc1, hh, h1⟩ := hupd
  rw [Option.map_eq_some'] at h1
  obtain ⟨pr, hf, hres⟩ := h1
  subst hres
  have hfold := foldl_npc_nonhero (List.map (fun c => c.update dt) m.characters)
    (fun c hc => by
      obtain ⟨c0, hc0, rfl⟩ := List.mem_map.mp hc
      rw [Character.update_name]
      exact hnpc c0 hc0)
    (acc1, []) pr hf
  have hufs := updateFinish_spec m pr
  constructor
  · constructor
    · rw [hufs.2.1, hfold.2.2.1]
      exact (heroStep_velocity hh).trans (Character.update_velocity m.hero dt)
    · intro hwall hnoexit
      have hacc1 : acc1 = { UpdAcc.mk (m.hero.update dt) quests none cm 0 with
          hero := wallAdjust m.walls dt (m.hero.update dt) } := by
        apply @heroStep_noexit m.walls m.exits m.exit_objs dt fuel r
          (UpdAcc.mk (m.hero.update dt) quests none cm 0) acc1 ?hname hnoexit hh
        case hname => rw [Character.update_name]; exact hname
      rw [hufs.1, hfold.2.1, hacc1]
      show (wallAdjust m.walls dt (m.hero.update dt)).position = m.hero.position
      rw [wallAdjust_position_of_collide hwall]
      rfl
  · intro idx c0 hc0 hwall
    refine ⟨wallAdjust m.walls dt (c0.update dt), ?_, ?_, ?_⟩
    · rw [hufs.2.2.1, hfold.2.2.2]
      simp only [List.nil_append, List.get?_map, hc0]
      rfl
    · rw [wallAdjust_position_of_collide hwall]
      rfl
    · rw [wallAdjust_velocity]
      exact Character.update_velocity c0 dt

set_option maxHeartbeats 4000000 in
/-- C5 witness: a concrete map where both the hero and an NPC run into
the wall and both revert exactly, with velocities untouched. -/
theorem claim_C5_witness :
    ∃ res, GameMap.update mapW5 [] 1 "main_map.tmx" 1 constFalseStream = some res ∧
      res.1.hero.position = mapW5.hero.position ∧
      res.1.hero.velocity = mapW5.hero.velocity ∧
      ∃ c', res.1.characters.get? 0 = some c' ∧
        c'.position = npcW5.position ∧ c'.velocity = npcW5.velocity := by
  cases hrun : GameMap.update mapW5 [] 1 "main_map.tmx" 1 constFalseStream with
  | none =>
    have hs : (GameMap.update mapW5 [] 1 "main_map.tmx" 1 constFalseStream).isSome
        = true := by with_unfolding_all decide
    rw [hrun] at hs
    exact absurd hs (by simp)
  | some res =>
    obtain ⟨⟨hvel, hpos⟩, hnpcs⟩ :=
      claim_C5 mapW5 [] 1 "main_map.tmx" 1 constFalseStream res rfl
        (fun c hc => by
          have hc' : c = npcW5 := by simpa [mapW5] using hc
          subst hc'
          decide)
        hrun
    exact ⟨res, rfl,
      hpos (by with_unfolding_all rfl) (by with_unfolding_all rfl), hvel,
      hnpcs 0 npcW5 rfl (by with_unfolding_all rfl)⟩

/-- C4 witness: a concrete run of the loop on `mapC1` that clears in one
displacement. -/
theorem claim_C4_witness :
    ∃ out, exitLoop (mapC1.exits ++ mapC1.walls) 1 constFalseStream 3 0
        (Character.update mapC1.hero 1) = some out ∧
      out.1.feet.collidelist (mapC1.exits ++ mapC1.walls) = none := by
  have hrun : exitLoop (mapC1.exits ++ mapC1.walls) 1 constFalseStream 3 0
      (Character.update mapC1.hero 1)
      = some (exitDisplace ⟨0, 0, 20, 40⟩ 1 1 1 (Character.update mapC1.hero 1), 2) := by
    with_unfolding_all rfl
  exact ⟨_, hrun, claim_C4 (mapC1.exits ++ mapC1.walls) 1 constFalseStream 3 0
    (Character.update mapC1.hero 1) _ hrun⟩

end RTS
